import Mathlib

set_option maxRecDepth 100000

/-!
Verification of the authoritative game-server core of `ping-pong-arkanoid`
(`src/server/src/main.rs`, shared data model in `src/shared/`).

Embedding conventions:
* `f32` values are modelled as exact rationals (`ℚ`).  Every constant of the
  program (world sizes, speeds, the fixed timestep `1/60`, `f32::EPSILON`
  `= 2⁻²³`) is an exact rational, and the claims under study are order/
  structure properties, not rounding properties.
* `usize` fields stay `Nat`.  The decrement `block.hits_life -= 1` is a
  checked subtraction: Rust integer overflow is a program error (a panic
  under debug assertions), so decrementing `0` yields `none`.
* The `.unwrap()` calls of the game loop (paddle lookup, ball lookup) are
  panics, hence the per-tick physics step returns `Option WorldData`;
  `none` models an aborted game loop.
* `[Paddle; 2]` is modelled as `Paddle × Paddle`, keeping the structural
  exactly-two-paddles guarantee of the Rust fixed-size array.
-/

/-- 2D vector of `f32` (`cgmath::Vector2<f32>`), modelled over ℚ. -/
@[ext] structure Vec2 where
  x : ℚ
  y : ℚ
deriving DecidableEq

/-- `shared::world_data::Ball` (`is_free` is the launched flag). -/
@[ext] structure Ball where
  id : Nat
  position : Vec2
  velocity : Vec2
  is_free : Bool
deriving DecidableEq

/-- `shared::world_data::Block`. -/
@[ext] structure Block where
  position : Vec2
  hits_life : Nat
deriving DecidableEq

/-- `shared::world_data::Paddle`. -/
@[ext] structure Paddle where
  id : Nat
  position : Vec2
deriving DecidableEq

/-- `shared::world_data::WorldData`; `paddles: [Paddle; 2]` becomes a pair. -/
@[ext] structure WorldData where
  blocks : List Block
  paddles : Paddle × Paddle
  balls : List Ball
deriving DecidableEq

/-- `server::PlayerKeyEvent`. -/
@[ext] structure PlayerKeyEvent where
  player_id : Nat
  key_code : Nat
deriving DecidableEq

/-- `shared::constants::WORLD_WIDTH` (used as an `f32`). -/
def WORLD_WIDTH : ℚ := 1920

/-- `shared::constants::WORLD_HEIGHT` (used as an `f32`). -/
def WORLD_HEIGHT : ℚ := 1080

/-- `shared::constants::BLOCK_SIZE` (a `usize`, cast to `f32` where needed). -/
def BLOCK_SIZE : Nat := 50

/-- `shared::constants::BLOCKS_IN_ROW = WORLD_WIDTH / BLOCK_SIZE` in `usize`
arithmetic, i.e. `1920 / 50 = 38` by truncating division. -/
def BLOCKS_IN_ROW : Nat := 1920 / BLOCK_SIZE

/-- `shared::constants::PADDLE_WIDTH` (used as an `f32`). -/
def PADDLE_WIDTH : ℚ := 200

/-- `shared::constants::PADDLE_HEIGHT` (used as an `f32`). -/
def PADDLE_HEIGHT : ℚ := 20

/-- `shared::constants::BALL_RADIUS` (used as an `f32`). -/
def BALL_RADIUS : ℚ := 10

/-- `server::BLOCK_ROWS`. -/
def BLOCK_ROWS : Nat := 5

/-- `server::BLOCK_HITS_LIFE`. -/
def BLOCK_HITS_LIFE : Nat := 1

/-- `server::BALL_SPEED` (used as an `f32`). -/
def BALL_SPEED : ℚ := 300

/-- `server::PADDLE_SPEED` (used as an `f32`). -/
def PADDLE_SPEED : ℚ := 300

/-- `server::GAME_LOOP_TIMESTEP_SECONDS = 1.0 / 60.0`. -/
def GAME_LOOP_TIMESTEP_SECONDS : ℚ := 1 / 60

/-- `f32::EPSILON = 2⁻²³`, the default tolerance of `AbsDiffEq` for `f32`. -/
def F32_EPSILON : ℚ := 1 / 8388608

/-- `raylib::consts::KeyboardKey::KEY_LEFT as u32`. -/
def KEY_LEFT : Nat := 263

/-- `raylib::consts::KeyboardKey::KEY_RIGHT as u32`. -/
def KEY_RIGHT : Nat := 262

/-- `raylib::consts::KeyboardKey::KEY_SPACE as u32`. -/
def KEY_SPACE : Nat := 32

/-- `a.abs_diff_eq(&b, f32::EPSILON)` of the `approx`/`cgmath` crates:
absolute difference within the tolerance. -/
def abs_diff_eq (a b : ℚ) : Prop := |a - b| ≤ F32_EPSILON

instance (a b : ℚ) : Decidable (abs_diff_eq a b) := by
  unfold abs_diff_eq; infer_instance

/-- `server::is_ball_collided_with_object`: AABB overlap of the ball
(approximated as a square of side `2 × BALL_RADIUS`) with a
`width × height` box centered at `position`, all comparisons strict. -/
def is_ball_collided_with_object (ball : Ball) (position : Vec2)
    (width height : ℚ) : Prop :=
  ball.position.x - BALL_RADIUS < position.x + width / 2
  ∧ ball.position.x + BALL_RADIUS > position.x - width / 2
  ∧ ball.position.y - BALL_RADIUS < position.y + height / 2
  ∧ ball.position.y + BALL_RADIUS > position.y - height / 2

instance (ball : Ball) (position : Vec2) (width height : ℚ) :
    Decidable (is_ball_collided_with_object ball position width height) := by
  unfold is_ball_collided_with_object; infer_instance

/-- `server::is_ball_hit_top_or_bottom_of_block`: the vertical offset from
block center to ball center strictly dominates the horizontal one. -/
def is_ball_hit_top_or_bottom_of_block (ball : Ball) (block : Block) : Prop :=
  |ball.position.y - block.position.y| > |ball.position.x - block.position.x|

instance (ball : Ball) (block : Block) :
    Decidable (is_ball_hit_top_or_bottom_of_block ball block) := by
  unfold is_ball_hit_top_or_bottom_of_block; infer_instance

/-- The two `if` statements of the drain loop moving a paddle by
`PADDLE_SPEED * GAME_LOOP_TIMESTEP_SECONDS` on `KEY_LEFT` / `KEY_RIGHT`
(`main.rs` lines 73-79); any other key leaves the paddle unchanged. -/
def move_paddle_by_key (key_code : Nat) (p : Paddle) : Paddle :=
  let p1 := if key_code = KEY_LEFT then
      ⟨p.id, ⟨p.position.x - PADDLE_SPEED * GAME_LOOP_TIMESTEP_SECONDS, p.position.y⟩⟩
    else p
  if key_code = KEY_RIGHT then
    ⟨p1.id, ⟨p1.position.x + PADDLE_SPEED * GAME_LOOP_TIMESTEP_SECONDS, p1.position.y⟩⟩
  else p1

/-- The `KEY_SPACE` branch body (`main.rs` lines 87-91): a ball that is not
yet free gets velocity `(0, -1)` and is marked free. -/
def launch_ball_if_attached (b : Ball) : Ball :=
  if b.is_free = false then ⟨b.id, b.position, ⟨0, -1⟩, true⟩ else b

/-- `balls.iter().position(|p| p.id == event.player_id)` followed by the
in-place update of that ball (`main.rs` lines 84-90): the first ball with
the matching id is replaced by its launched version; `none` models the
`.unwrap()` panic when no ball has the id. -/
def launch_first_ball_with_id (pid : Nat) : List Ball → Option (List Ball)
  | [] => none
  | b :: rest =>
    if b.id = pid then some (launch_ball_if_attached b :: rest)
    else Option.map (fun r => b :: r) (launch_first_ball_with_id pid rest)

/-- Tail of one drain-loop iteration after the paddle move: the
`KEY_SPACE` check and ball launch (`main.rs` lines 83-92). -/
def after_paddle_move (ev : PlayerKeyEvent) (ps2 : Paddle × Paddle)
    (bs : List Ball) : Option ((Paddle × Paddle) × List Ball) :=
  if ev.key_code = KEY_SPACE then
    match launch_first_ball_with_id ev.player_id bs with
    | none => none
    | some bs2 => some (ps2, bs2)
  else some (ps2, bs)

/-- One iteration of the drain loop (`main.rs` lines 65-93): find the paddle
with the event's player id (`.unwrap()` panic — `none` — if absent, checked
before any key dispatch), move it for `KEY_LEFT`/`KEY_RIGHT`, then handle
`KEY_SPACE`. -/
def apply_player_key_event (ev : PlayerKeyEvent) (ps : Paddle × Paddle)
    (bs : List Ball) : Option ((Paddle × Paddle) × List Ball) :=
  if ps.1.id = ev.player_id then
    after_paddle_move ev (move_paddle_by_key ev.key_code ps.1, ps.2) bs
  else if ps.2.id = ev.player_id then
    after_paddle_move ev (ps.1, move_paddle_by_key ev.key_code ps.2) bs
  else none

/-- The whole `while let Ok(event) = ... try_recv()` drain loop: the events
queued for this tick, applied in arrival order. -/
def apply_player_key_events : List PlayerKeyEvent → (Paddle × Paddle) → List Ball →
    Option ((Paddle × Paddle) × List Ball)
  | [], ps, bs => some (ps, bs)
  | ev :: rest, ps, bs =>
    match apply_player_key_event ev ps bs with
    | none => none
    | some (ps2, bs2) => apply_player_key_events rest ps2 bs2

/-- Paddle clamping (`main.rs` lines 95-103): two sequential `if`s pinning
the paddle's half-width inside `[0, WORLD_WIDTH]`. -/
def clamp_paddle (p : Paddle) : Paddle :=
  let x1 := if p.position.x - PADDLE_WIDTH / 2 ≤ 0 then PADDLE_WIDTH / 2
    else p.position.x
  let x2 := if x1 + PADDLE_WIDTH / 2 ≥ WORLD_WIDTH then WORLD_WIDTH - PADDLE_WIDTH / 2
    else x1
  ⟨p.id, ⟨x2, p.position.y⟩⟩

/-- Wall reflection (`main.rs` lines 105-115).  Note the exact source
conditions: the *center* `position.x` is compared against the left wall
(`< 0` or `abs_diff_eq 0`), and the right test is `position.x + BALL_RADIUS
> WORLD_WIDTH` or `abs_diff_eq position.x WORLD_WIDTH` (again the center in
the epsilon test).  On a hit, `velocity.x *= -1.0`. -/
def wall_reflect_ball (b : Ball) : Ball :=
  if (b.position.x < 0 ∨ abs_diff_eq b.position.x 0)
      ∨ (b.position.x + BALL_RADIUS > WORLD_WIDTH
         ∨ abs_diff_eq b.position.x WORLD_WIDTH) then
    ⟨b.id, b.position, ⟨b.velocity.x * (-1), b.velocity.y⟩, b.is_free⟩
  else b

/-- Out-of-bounds removal (`main.rs` lines 117-120):
`balls.retain(|b| (b.y <= 0) == false && (b.y + BALL_RADIUS >= WORLD_HEIGHT) == false)`. -/
def retain_in_field_balls (bs : List Ball) : List Ball :=
  bs.filter (fun b =>
    (!decide (b.position.y ≤ 0)) && (!decide (b.position.y + BALL_RADIUS ≥ WORLD_HEIGHT)))

/-- Paddle collision for one paddle (`main.rs` lines 123-136): on AABB
overlap, optionally steer `velocity.x` to `centers_difference /
(PADDLE_WIDTH / 2)` when the offset is not epsilon-equal to zero, then
`velocity.y *= -1.0`. -/
def paddle_bounce (p : Paddle) (b : Ball) : Ball :=
  if is_ball_collided_with_object b p.position PADDLE_WIDTH PADDLE_HEIGHT then
    let centers_difference := b.position.x - p.position.x
    let vx := if ¬ abs_diff_eq centers_difference 0 then
        centers_difference / (PADDLE_WIDTH / 2)
      else b.velocity.x
    ⟨b.id, b.position, ⟨vx, b.velocity.y * (-1)⟩, b.is_free⟩
  else b

/-- The inner `for block in &mut blocks` loop for one ball (`main.rs` lines
143-155): scan the blocks in sequence order; at the first overlapping block
reflect the ball (vertical-dominant offset flips `velocity.y`, otherwise
`velocity.x`), decrement `hits_life` and `break`.  Decrementing a `usize`
that is already `0` is an arithmetic underflow, i.e. a panic (`none`). -/
def ball_blocks_step (b : Ball) : List Block → Option (Ball × List Block)
  | [] => some (b, [])
  | bl :: rest =>
    if is_ball_collided_with_object b bl.position (BLOCK_SIZE : ℚ) (BLOCK_SIZE : ℚ) then
      match bl.hits_life with
      | 0 => none
      | n + 1 =>
        let b2 := if is_ball_hit_top_or_bottom_of_block b bl then
            (⟨b.id, b.position, ⟨b.velocity.x, b.velocity.y * (-1)⟩, b.is_free⟩ : Ball)
          else ⟨b.id, b.position, ⟨b.velocity.x * (-1), b.velocity.y⟩, b.is_free⟩
        some (b2, ⟨bl.position, n⟩ :: rest)
    else Option.map (fun r => (r.1, bl :: r.2)) (ball_blocks_step b rest)

/-- The outer `for ball in balls.iter_mut()` loop of the block-collision
stage (`main.rs` lines 142-156), threading the mutable blocks through the
balls in order. -/
def balls_blocks_stage : List Ball → List Block → Option (List Ball × List Block)
  | [], blocks => some ([], blocks)
  | b :: rest, blocks =>
    match ball_blocks_step b blocks with
    | none => none
    | some (b2, blocks2) =>
      match balls_blocks_stage rest blocks2 with
      | none => none
      | some (rest2, blocks3) => some (b2 :: rest2, blocks3)

/-- Block pruning (`main.rs` line 158): `blocks.retain(|b| b.hits_life != 0)`. -/
def prune_blocks (blocks : List Block) : List Block :=
  blocks.filter (fun bl => bl.hits_life != 0)

/-- Motion integration (`main.rs` lines 160-164): a free ball advances by
`velocity * BALL_SPEED * GAME_LOOP_TIMESTEP_SECONDS`. -/
def integrate_ball (b : Ball) : Ball :=
  if b.is_free then
    ⟨b.id,
     ⟨b.position.x + b.velocity.x * BALL_SPEED * GAME_LOOP_TIMESTEP_SECONDS,
      b.position.y + b.velocity.y * BALL_SPEED * GAME_LOOP_TIMESTEP_SECONDS⟩,
     b.velocity, b.is_free⟩
  else b

/-- One iteration of the game loop body (`main.rs` lines 61-170), from the
drained key events and the previous snapshot to the next emitted snapshot:
apply intents, clamp paddles, reflect at side walls, drop out-of-bounds
balls, bounce on the two paddles (array order), collide with blocks, prune
dead blocks, integrate motion.  `none` models a panic of the loop. -/
def physics_step (events : List PlayerKeyEvent) (w : WorldData) : Option WorldData :=
  match apply_player_key_events events w.paddles w.balls with
  | none => none
  | some (paddles0, balls0) =>
    let paddles := (clamp_paddle paddles0.1, clamp_paddle paddles0.2)
    let balls3 := (retain_in_field_balls (balls0.map wall_reflect_ball)).map
      (fun b => paddle_bounce paddles.2 (paddle_bounce paddles.1 b))
    match balls_blocks_stage balls3 w.blocks with
    | none => none
    | some (balls4, blocks1) =>
      some ⟨prune_blocks blocks1, paddles, balls4.map integrate_ball⟩

/-- `server::create_world_data` (`main.rs` lines 176-234): the block grid
(row-major), the two paddles (`id 1` near the top edge first, `id 0` near
the bottom edge), and one attached ball per paddle. -/
def create_world_data : WorldData :=
  let blocks : List Block :=
    (List.range BLOCK_ROWS).flatMap (fun row_index =>
      (List.range BLOCKS_IN_ROW).map (fun block_index =>
        ⟨⟨((block_index * (BLOCK_SIZE + 1) : Nat) : ℚ) + (BLOCK_SIZE : ℚ) / 2,
          ((row_index * (BLOCK_SIZE + 1) : Nat) : ℚ) + (BLOCK_SIZE : ℚ) / 2
            + WORLD_HEIGHT / 2 - ((BLOCK_SIZE : ℚ) * 2 + (BLOCK_SIZE : ℚ) / 2)⟩,
         BLOCK_HITS_LIFE⟩))
  let paddles : Paddle × Paddle :=
    (⟨1, ⟨WORLD_WIDTH / 2, PADDLE_HEIGHT⟩⟩,
     ⟨0, ⟨WORLD_WIDTH / 2, WORLD_HEIGHT - PADDLE_HEIGHT⟩⟩)
  let balls : List Ball :=
    [⟨1, ⟨paddles.1.position.x, paddles.1.position.y + PADDLE_HEIGHT / 2 + BALL_RADIUS⟩,
      ⟨0, 0⟩, false⟩,
     ⟨0, ⟨paddles.2.position.x, paddles.2.position.y - PADDLE_HEIGHT / 2 - BALL_RADIUS⟩,
      ⟨0, 0⟩, false⟩]
  ⟨blocks, paddles, balls⟩

/-- Iterate the game loop over a list of per-tick drained event batches. -/
def run_ticks : WorldData → List (List PlayerKeyEvent) → Option WorldData
  | w, [] => some w
  | w, evs :: rest =>
    match physics_step evs w with
    | none => none
    | some w2 => run_ticks w2 rest

/-- Snapshots reachable by the game loop: the initial world, closed under
one physics step with an arbitrary drained event batch. -/
inductive Reachable : WorldData → Prop
  | init : Reachable create_world_data
  | step (w w2 : WorldData) (evs : List PlayerKeyEvent) :
      Reachable w → physics_step evs w = some w2 → Reachable w2

/-! ## Invariants of reachable snapshots -/

/-- Paddle facts that every reachable snapshot satisfies: the array holds
paddle id 1 (top) first and id 0 (bottom) second, their `y` coordinates
never change, and their `x` coordinates are inside the clamp range. -/
def PaddleInv (w : WorldData) : Prop :=
  w.paddles.1.id = 1 ∧ w.paddles.2.id = 0
  ∧ w.paddles.1.position.y = PADDLE_HEIGHT
  ∧ w.paddles.2.position.y = WORLD_HEIGHT - PADDLE_HEIGHT
  ∧ PADDLE_WIDTH / 2 ≤ w.paddles.1.position.x
  ∧ w.paddles.1.position.x ≤ WORLD_WIDTH - PADDLE_WIDTH / 2
  ∧ PADDLE_WIDTH / 2 ≤ w.paddles.2.position.x
  ∧ w.paddles.2.position.x ≤ WORLD_WIDTH - PADDLE_WIDTH / 2

/-- Block facts of every reachable snapshot: blocks are alive and their
centers stay in the vertical band `[75, 1005]` (the initial grid spans
`[440, 644]` and block positions never change), far from the rest slots of
un-launched balls. -/
def BlockInv (w : WorldData) : Prop :=
  ∀ bl ∈ w.blocks, bl.hits_life ≠ 0 ∧ 75 ≤ bl.position.y ∧ bl.position.y ≤ 1005

/-- Ball facts of every reachable snapshot: a ball that was never launched
sits at its initial rest height (`40` for the top player, `1040` for the
bottom player) with zero velocity. -/
def BallInv (w : WorldData) : Prop :=
  ∀ b ∈ w.balls, b.is_free = false →
    b.velocity = ⟨0, 0⟩ ∧ (b.position.y = 40 ∨ b.position.y = 1040)

/-- Conjunction of the reachability invariants. -/
def WorldInv (w : WorldData) : Prop := PaddleInv w ∧ BlockInv w ∧ BallInv w

instance (w : WorldData) : Decidable (PaddleInv w) := by
  unfold PaddleInv; infer_instance

instance (w : WorldData) : Decidable (BlockInv w) := by
  unfold BlockInv; infer_instance

instance (w : WorldData) : Decidable (BallInv w) := by
  unfold BallInv; infer_instance

instance (w : WorldData) : Decidable (WorldInv w) := by
  unfold WorldInv; infer_instance

/-! ## Helper lemmas on lists -/

lemma list_map_eq_self_of {α : Type} {f : α → α} {l : List α}
    (h : ∀ a ∈ l, f a = a) : l.map f = l := by
  induction l with
  | nil => rfl
  | cons a rest ih =>
    simp only [List.map_cons, List.cons.injEq]
    exact ⟨h a (by simp), ih (fun x hx => h x (by simp [hx]))⟩

lemma list_filter_eq_self_of {α : Type} {p : α → Bool} {l : List α}
    (h : ∀ a ∈ l, p a = true) : l.filter p = l := by
  induction l with
  | nil => rfl
  | cons a rest ih =>
    rw [List.filter_cons, if_pos (h a (by simp)), ih (fun x hx => h x (by simp [hx]))]

/-! ## Stage lemmas: drained key events -/

lemma move_paddle_by_key_id (k : Nat) (p : Paddle) :
    (move_paddle_by_key k p).id = p.id := by
  unfold move_paddle_by_key
  dsimp only
  split <;> split <;> rfl

lemma move_paddle_by_key_y (k : Nat) (p : Paddle) :
    (move_paddle_by_key k p).position.y = p.position.y := by
  unfold move_paddle_by_key
  dsimp only
  split <;> split <;> rfl

lemma after_paddle_move_paddles {ev : PlayerKeyEvent} {ps2 : Paddle × Paddle}
    {bs : List Ball} {ps3 : Paddle × Paddle} {bs3 : List Ball}
    (h : after_paddle_move ev ps2 bs = some (ps3, bs3)) : ps3 = ps2 := by
  unfold after_paddle_move at h
  split at h
  · split at h
    · exact absurd h (by simp)
    · simp only [Option.some.injEq, Prod.mk.injEq] at h
      exact h.1.symm
  · simp only [Option.some.injEq, Prod.mk.injEq] at h
    exact h.1.symm

lemma apply_player_key_event_paddles {ev : PlayerKeyEvent} {ps : Paddle × Paddle}
    {bs : List Ball} {ps2 : Paddle × Paddle} {bs2 : List Ball}
    (h : apply_player_key_event ev ps bs = some (ps2, bs2)) :
    ps2.1.id = ps.1.id ∧ ps2.2.id = ps.2.id
    ∧ ps2.1.position.y = ps.1.position.y ∧ ps2.2.position.y = ps.2.position.y := by
  unfold apply_player_key_event at h
  split at h
  · rw [after_paddle_move_paddles h]
    exact ⟨move_paddle_by_key_id _ _, rfl, move_paddle_by_key_y _ _, rfl⟩
  · split at h
    · rw [after_paddle_move_paddles h]
      exact ⟨rfl, move_paddle_by_key_id _ _, rfl, move_paddle_by_key_y _ _⟩
    · exact absurd h (by simp)

lemma apply_player_key_events_paddles {evs : List PlayerKeyEvent}
    {ps : Paddle × Paddle} {bs : List Ball} {ps2 : Paddle × Paddle} {bs2 : List Ball}
    (h : apply_player_key_events evs ps bs = some (ps2, bs2)) :
    ps2.1.id = ps.1.id ∧ ps2.2.id = ps.2.id
    ∧ ps2.1.position.y = ps.1.position.y ∧ ps2.2.position.y = ps.2.position.y := by
  induction evs generalizing ps bs with
  | nil =>
    unfold apply_player_key_events at h
    simp only [Option.some.injEq, Prod.mk.injEq] at h
    rw [h.1]
    exact ⟨rfl, rfl, rfl, rfl⟩
  | cons ev rest ih =>
    unfold apply_player_key_events at h
    split at h
    · exact absurd h (by simp)
    · rename_i ps1 bs1 heq
      obtain ⟨h1, h2, h3, h4⟩ := ih h
      obtain ⟨g1, g2, g3, g4⟩ := apply_player_key_event_paddles heq
      exact ⟨h1.trans g1, h2.trans g2, h3.trans g3, h4.trans g4⟩

lemma launch_first_ball_with_id_mem {pid : Nat} {bs bs2 : List Ball}
    (h : launch_first_ball_with_id pid bs = some bs2) :
    ∀ b2 ∈ bs2, b2 ∈ bs ∨ b2.is_free = true := by
  induction bs generalizing bs2 with
  | nil => exact absurd h (by simp [launch_first_ball_with_id])
  | cons b rest ih =>
    unfold launch_first_ball_with_id at h
    split at h
    · simp only [Option.some.injEq] at h
      intro b2 hb2
      rw [← h] at hb2
      rcases List.mem_cons.mp hb2 with hhead | htail
      · unfold launch_ball_if_attached at hhead
        split at hhead
        · right; rw [hhead]
        · left; rw [hhead]; simp
      · left; simp [htail]
    · cases hrec : launch_first_ball_with_id pid rest with
      | none => rw [hrec] at h; exact absurd h (by simp)
      | some r =>
        rw [hrec] at h
        rw [Option.map] at h
        simp only [Option.some.injEq] at h
        intro b2 hb2
        rw [← h] at hb2
        rcases List.mem_cons.mp hb2 with hhead | htail
        · left; simp [hhead]
        · rcases ih hrec b2 htail with hmem | hfree
          · left; simp [hmem]
          · right; exact hfree

lemma after_paddle_move_balls {ev : PlayerKeyEvent} {ps2 : Paddle × Paddle}
    {bs : List Ball} {ps3 : Paddle × Paddle} {bs3 : List Ball}
    (h : after_paddle_move ev ps2 bs = some (ps3, bs3)) :
    ∀ b2 ∈ bs3, b2 ∈ bs ∨ b2.is_free = true := by
  unfold after_paddle_move at h
  split at h
  · cases hl : launch_first_ball_with_id ev.player_id bs with
    | none => rw [hl] at h; exact absurd h (by simp)
    | some r =>
      rw [hl] at h
      simp only [Option.some.injEq, Prod.mk.injEq] at h
      rw [← h.2]
      exact launch_first_ball_with_id_mem hl
  · simp only [Option.some.injEq, Prod.mk.injEq] at h
    rw [← h.2]
    intro b2 hb2
    exact Or.inl hb2

lemma apply_player_key_event_balls {ev : PlayerKeyEvent} {ps : Paddle × Paddle}
    {bs : List Ball} {ps2 : Paddle × Paddle} {bs2 : List Ball}
    (h : apply_player_key_event ev ps bs = some (ps2, bs2)) :
    ∀ b2 ∈ bs2, b2 ∈ bs ∨ b2.is_free = true := by
  unfold apply_player_key_event at h
  split at h
  · exact after_paddle_move_balls h
  · split at h
    · exact after_paddle_move_balls h
    · exact absurd h (by simp)

lemma apply_player_key_events_balls {evs : List PlayerKeyEvent}
    {ps : Paddle × Paddle} {bs : List Ball} {ps2 : Paddle × Paddle} {bs2 : List Ball}
    (h : apply_player_key_events evs ps bs = some (ps2, bs2)) :
    ∀ b2 ∈ bs2, b2 ∈ bs ∨ b2.is_free = true := by
  induction evs generalizing ps bs with
  | nil =>
    unfold apply_player_key_events at h
    simp only [Option.some.injEq, Prod.mk.injEq] at h
    rw [← h.2]
    exact fun b2 hb2 => Or.inl hb2
  | cons ev rest ih =>
    unfold apply_player_key_events at h
    split at h
    · exact absurd h (by simp)
    · rename_i ps1 bs1 heq
      intro b2 hb2
      rcases ih h b2 hb2 with hmem | hfree
      · exact apply_player_key_event_balls heq b2 hmem
      · exact Or.inr hfree

/-! ## Stage lemmas: paddle clamping -/

lemma clamp_paddle_id (p : Paddle) : (clamp_paddle p).id = p.id := rfl

lemma clamp_paddle_y (p : Paddle) : (clamp_paddle p).position.y = p.position.y := rfl

lemma clamp_paddle_x_bounds (p : Paddle) :
    PADDLE_WIDTH / 2 ≤ (clamp_paddle p).position.x
    ∧ (clamp_paddle p).position.x ≤ WORLD_WIDTH - PADDLE_WIDTH / 2 := by
  unfold clamp_paddle
  dsimp only
  split
  · split
    · constructor <;> norm_num [PADDLE_WIDTH, WORLD_WIDTH]
    · constructor <;> norm_num [PADDLE_WIDTH, WORLD_WIDTH]
  · rename_i h1
    rw [not_le] at h1
    split
    · constructor <;> norm_num [PADDLE_WIDTH, WORLD_WIDTH]
    · rename_i h2
      rw [not_le] at h2
      constructor
      · norm_num [PADDLE_WIDTH] at h1 ⊢
        linarith
      · norm_num [PADDLE_WIDTH, WORLD_WIDTH] at h2 ⊢
        linarith

lemma clamp_paddle_eq_self {p : Paddle}
    (h1 : PADDLE_WIDTH / 2 ≤ p.position.x)
    (h2 : p.position.x ≤ WORLD_WIDTH - PADDLE_WIDTH / 2) : clamp_paddle p = p := by
  unfold clamp_paddle
  dsimp only
  split
  · rename_i hc
    have hx : p.position.x = PADDLE_WIDTH / 2 := le_antisymm (by linarith) h1
    rw [if_neg (by norm_num [PADDLE_WIDTH, WORLD_WIDTH]), ← hx]
  · split
    · rename_i hc hd
      have hx : p.position.x = WORLD_WIDTH - PADDLE_WIDTH / 2 :=
        le_antisymm h2 (by linarith)
      rw [← hx]
    · rfl

/-! ## Stage lemmas: wall reflection -/

lemma wall_reflect_ball_velocity_y (b : Ball) :
    (wall_reflect_ball b).velocity.y = b.velocity.y := by
  unfold wall_reflect_ball
  split <;> rfl

lemma wall_reflect_ball_position (b : Ball) :
    (wall_reflect_ball b).position = b.position := by
  unfold wall_reflect_ball
  split <;> rfl

lemma wall_reflect_ball_is_free (b : Ball) :
    (wall_reflect_ball b).is_free = b.is_free := by
  unfold wall_reflect_ball
  split <;> rfl

lemma wall_reflect_ball_eq_self_of_vx_zero {b : Ball} (h : b.velocity.x = 0) :
    wall_reflect_ball b = b := by
  unfold wall_reflect_ball
  split
  · have hv : (⟨b.velocity.x * (-1), b.velocity.y⟩ : Vec2) = b.velocity := by
      ext
      · rw [h]; ring
      · rfl
    rw [hv]
  · rfl

/-! ## Stage lemmas: out-of-bounds removal -/

lemma retain_in_field_balls_mem {bs : List Ball} {b : Ball} :
    b ∈ retain_in_field_balls bs ↔
      b ∈ bs ∧ ¬ b.position.y ≤ 0 ∧ ¬ b.position.y + BALL_RADIUS ≥ WORLD_HEIGHT := by
  unfold retain_in_field_balls
  rw [List.mem_filter]
  simp only [Bool.and_eq_true, Bool.not_eq_eq_eq_not, Bool.not_true, decide_eq_false_iff_not]

/-! ## Stage lemmas: paddle bounce -/

lemma paddle_bounce_eq_self_of_not_collided {p : Paddle} {b : Ball}
    (h : ¬ is_ball_collided_with_object b p.position PADDLE_WIDTH PADDLE_HEIGHT) :
    paddle_bounce p b = b := by
  unfold paddle_bounce
  rw [if_neg h]

/-- A ball resting at one of the two initial attachment heights never
overlaps a paddle whose center sits at one of the two paddle heights. -/
lemma no_paddle_overlap_at_rest {p : Paddle} {b : Ball}
    (hb : b.position.y = 40 ∨ b.position.y = 1040)
    (hp : p.position.y = PADDLE_HEIGHT ∨ p.position.y = WORLD_HEIGHT - PADDLE_HEIGHT) :
    ¬ is_ball_collided_with_object b p.position PADDLE_WIDTH PADDLE_HEIGHT := by
  unfold is_ball_collided_with_object
  intro hcol
  obtain ⟨-, -, h3, h4⟩ := hcol
  rcases hb with hb | hb <;> rcases hp with hp | hp <;>
    rw [hb, hp] at h3 h4 <;> norm_num [PADDLE_HEIGHT, WORLD_HEIGHT, BALL_RADIUS] at h3 h4

/-! ## Stage lemmas: block collision -/

lemma ball_blocks_step_eq_self_of_no_overlap {b : Ball} {blocks : List Block}
    (h : ∀ bl ∈ blocks,
      ¬ is_ball_collided_with_object b bl.position (BLOCK_SIZE : ℚ) (BLOCK_SIZE : ℚ)) :
    ball_blocks_step b blocks = some (b, blocks) := by
  induction blocks with
  | nil => rfl
  | cons bl rest ih =>
    unfold ball_blocks_step
    rw [if_neg (h bl (by simp))]
    rw [ih (fun x hx => h x (by simp [hx]))]
    rfl

lemma ball_blocks_step_ball_fields {b : Ball} {blocks : List Block}
    {b2 : Ball} {blocks2 : List Block}
    (h : ball_blocks_step b blocks = some (b2, blocks2)) :
    b2.id = b.id ∧ b2.position = b.position ∧ b2.is_free = b.is_free := by
  induction blocks generalizing blocks2 with
  | nil =>
    unfold ball_blocks_step at h
    simp only [Option.some.injEq, Prod.mk.injEq] at h
    rw [← h.1]
    exact ⟨rfl, rfl, rfl⟩
  | cons bl rest ih =>
    unfold ball_blocks_step at h
    split at h
    · split at h
      · exact absurd h (by simp)
      · simp only [Option.some.injEq, Prod.mk.injEq] at h
        rw [← h.1]
        split <;> exact ⟨rfl, rfl, rfl⟩
    · cases hrec : ball_blocks_step b rest with
      | none => rw [hrec] at h; exact absurd h (by simp)
      | some r =>
        rw [hrec] at h
        rw [Option.map] at h
        simp only [Option.some.injEq, Prod.mk.injEq] at h
        have hrec2 : ball_blocks_step b rest = some (b2, r.2) := by
          rw [hrec, ← h.1]
        exact ih hrec2

lemma ball_blocks_step_blocks {b : Ball} {blocks : List Block}
    {b2 : Ball} {blocks2 : List Block}
    (h : ball_blocks_step b blocks = some (b2, blocks2)) :
    ∀ bl2 ∈ blocks2, ∃ bl ∈ blocks,
      bl2.position = bl.position ∧ bl2.hits_life ≤ bl.hits_life := by
  induction blocks generalizing blocks2 with
  | nil =>
    unfold ball_blocks_step at h
    simp only [Option.some.injEq, Prod.mk.injEq] at h
    rw [← h.2]
    intro bl2 hbl2
    exact absurd hbl2 (by simp)
  | cons bl rest ih =>
    unfold ball_blocks_step at h
    split at h
    · split at h
      · exact absurd h (by simp)
      · rename_i n hn
        simp only [Option.some.injEq, Prod.mk.injEq] at h
        rw [← h.2]
        intro bl2 hbl2
        rcases List.mem_cons.mp hbl2 with hhead | htail
        · exact ⟨bl, by simp, by rw [hhead], by rw [hhead, hn]; exact Nat.le_succ n⟩
        · exact ⟨bl2, by simp [htail], rfl, le_refl _⟩
    · cases hrec : ball_blocks_step b rest with
      | none => rw [hrec] at h; exact absurd h (by simp)
      | some r =>
        rw [hrec] at h
        rw [Option.map] at h
        simp only [Option.some.injEq, Prod.mk.injEq] at h
        have hrec2 : ball_blocks_step b rest = some (b2, r.2) := by
          rw [hrec, ← h.1]
        rw [← h.2]
        intro bl2 hbl2
        rcases List.mem_cons.mp hbl2 with hhead | htail
        · exact ⟨bl, by simp, by rw [hhead], by rw [hhead]⟩
        · obtain ⟨bl0, hbl0, hpos, hle⟩ := ih hrec2 bl2 htail
          exact ⟨bl0, by simp [hbl0], hpos, hle⟩

lemma balls_blocks_stage_blocks {balls : List Ball} {blocks : List Block}
    {balls2 : List Ball} {blocks2 : List Block}
    (h : balls_blocks_stage balls blocks = some (balls2, blocks2)) :
    ∀ bl2 ∈ blocks2, ∃ bl ∈ blocks,
      bl2.position = bl.position ∧ bl2.hits_life ≤ bl.hits_life := by
  induction balls generalizing blocks balls2 blocks2 with
  | nil =>
    unfold balls_blocks_stage at h
    simp only [Option.some.injEq, Prod.mk.injEq] at h
    rw [← h.2]
    intro bl2 hbl2
    exact ⟨bl2, hbl2, rfl, le_refl _⟩
  | cons b rest ih =>
    unfold balls_blocks_stage at h
    split at h
    · exact absurd h (by simp)
    · rename_i b2 blocks1 heq
      split at h
      · exact absurd h (by simp)
      · rename_i rest2 blocks3 heq2
        simp only [Option.some.injEq, Prod.mk.injEq] at h
        rw [← h.2]
        intro bl2 hbl2
        obtain ⟨bl1, hbl1, hpos1, hle1⟩ := ih heq2 bl2 hbl2
        obtain ⟨bl0, hbl0, hpos0, hle0⟩ := ball_blocks_step_blocks heq bl1 hbl1
        exact ⟨bl0, hbl0, hpos1.trans hpos0, hle1.trans hle0⟩

/-- A ball resting at one of the two attachment heights never overlaps a
block whose center `y` lies in `[75, 1005]`. -/
lemma no_block_overlap_at_rest {b : Ball} {bl : Block}
    (hb : b.position.y = 40 ∨ b.position.y = 1040)
    (hbl : 75 ≤ bl.position.y ∧ bl.position.y ≤ 1005) :
    ¬ is_ball_collided_with_object b bl.position (BLOCK_SIZE : ℚ) (BLOCK_SIZE : ℚ) := by
  unfold is_ball_collided_with_object
  intro hcol
  obtain ⟨-, -, h3, h4⟩ := hcol
  obtain ⟨hlo, hhi⟩ := hbl
  rcases hb with hb | hb <;>
    rw [hb] at h3 h4 <;> norm_num [BALL_RADIUS, BLOCK_SIZE] at h3 h4 <;> linarith

lemma balls_blocks_stage_eq_self_of_no_overlap {balls : List Ball} {blocks : List Block}
    (h : ∀ b ∈ balls, ∀ bl ∈ blocks,
      ¬ is_ball_collided_with_object b bl.position (BLOCK_SIZE : ℚ) (BLOCK_SIZE : ℚ)) :
    balls_blocks_stage balls blocks = some (balls, blocks) := by
  induction balls with
  | nil => rfl
  | cons b rest ih =>
    unfold balls_blocks_stage
    rw [ball_blocks_step_eq_self_of_no_overlap (h b (by simp))]
    dsimp only
    rw [ih (fun x hx => h x (by simp [hx]))]

lemma balls_blocks_stage_nonfree {balls : List Ball} {blocks : List Block}
    {balls2 : List Ball} {blocks2 : List Block}
    (hball : ∀ b ∈ balls, b.is_free = false →
      b.velocity = ⟨0, 0⟩ ∧ (b.position.y = 40 ∨ b.position.y = 1040))
    (hblocks : ∀ bl ∈ blocks, 75 ≤ bl.position.y ∧ bl.position.y ≤ 1005)
    (h : balls_blocks_stage balls blocks = some (balls2, blocks2)) :
    ∀ b2 ∈ balls2, b2.is_free = false →
      b2.velocity = ⟨0, 0⟩ ∧ (b2.position.y = 40 ∨ b2.position.y = 1040) := by
  induction balls generalizing blocks balls2 blocks2 with
  | nil =>
    unfold balls_blocks_stage at h
    simp only [Option.some.injEq, Prod.mk.injEq] at h
    rw [← h.1]
    intro b2 hb2
    exact absurd hb2 (by simp)
  | cons b rest ih =>
    unfold balls_blocks_stage at h
    split at h
    · exact absurd h (by simp)
    · rename_i b2 blocks1 heq
      split at h
      · exact absurd h (by simp)
      · rename_i rest2 blocks3 heq2
        simp only [Option.some.injEq, Prod.mk.injEq] at h
        rw [← h.1]
        have hblocks1 : ∀ bl ∈ blocks1, 75 ≤ bl.position.y ∧ bl.position.y ≤ 1005 := by
          intro bl hbl
          obtain ⟨bl0, hbl0, hpos, -⟩ := ball_blocks_step_blocks heq bl hbl
          rw [hpos]
          exact hblocks bl0 hbl0
        intro b3 hb3
        rcases List.mem_cons.mp hb3 with hhead | htail
        · intro hfree
          obtain ⟨hid, hpos, hfr⟩ := ball_blocks_step_ball_fields heq
          rw [hhead] at hfree ⊢
          rw [hfr] at hfree
          obtain ⟨hv, hy⟩ := hball b (by simp) hfree
          have hno : ∀ bl ∈ blocks,
              ¬ is_ball_collided_with_object b bl.position (BLOCK_SIZE : ℚ) (BLOCK_SIZE : ℚ) := by
            intro bl hbl
            exact no_block_overlap_at_rest (hpos ▸ hy) (hblocks bl hbl)
          rw [ball_blocks_step_eq_self_of_no_overlap hno] at heq
          simp only [Option.some.injEq, Prod.mk.injEq] at heq
          rw [← heq.1]
          exact ⟨hv, hy⟩
        · exact ih (fun x hx => hball x (by simp [hx])) hblocks1 heq2 b3 htail

/-! ## Stage lemmas: pruning and integration -/

lemma prune_blocks_mem {blocks : List Block} {bl : Block} :
    bl ∈ prune_blocks blocks ↔ bl ∈ blocks ∧ bl.hits_life ≠ 0 := by
  unfold prune_blocks
  rw [List.mem_filter]
  simp

lemma integrate_ball_eq_self_of_not_free {b : Ball} (h : b.is_free = false) :
    integrate_ball b = b := by
  unfold integrate_ball
  rw [h]
  rfl

lemma integrate_ball_is_free (b : Ball) : (integrate_ball b).is_free = b.is_free := by
  unfold integrate_ball
  split <;> rfl

lemma paddle_bounce_is_free (p : Paddle) (b : Ball) :
    (paddle_bounce p b).is_free = b.is_free := by
  unfold paddle_bounce
  split <;> rfl

/-- One physics step preserves the reachability invariants. -/
lemma physics_step_world_inv {evs : List PlayerKeyEvent} {w w2 : WorldData}
    (h : physics_step evs w = some w2) (hinv : WorldInv w) : WorldInv w2 := by
  obtain ⟨⟨hid1, hid2, hy1, hy2, hx1l, hx1r, hx2l, hx2r⟩, hblk, hball⟩ := hinv
  unfold physics_step at h
  split at h
  · exact absurd h (by simp)
  · rename_i paddles0 balls0 happ
    dsimp only at h
    split at h
    · exact absurd h (by simp)
    · rename_i balls4 blocks1 hstage
      simp only [Option.some.injEq] at h
      subst h
      obtain ⟨g1, g2, g3, g4⟩ := apply_player_key_events_paddles happ
      have hp1y : (clamp_paddle paddles0.1).position.y = PADDLE_HEIGHT := by
        rw [clamp_paddle_y, g3]; exact hy1
      have hp2y : (clamp_paddle paddles0.2).position.y = WORLD_HEIGHT - PADDLE_HEIGHT := by
        rw [clamp_paddle_y, g4]; exact hy2
      refine ⟨⟨?_, ?_, hp1y, hp2y, (clamp_paddle_x_bounds _).1, (clamp_paddle_x_bounds _).2,
        (clamp_paddle_x_bounds _).1, (clamp_paddle_x_bounds _).2⟩, ?_, ?_⟩
      · rw [clamp_paddle_id, g1]; exact hid1
      · rw [clamp_paddle_id, g2]; exact hid2
      · intro bl2 hbl2
        rw [prune_blocks_mem] at hbl2
        obtain ⟨hmem1, hne⟩ := hbl2
        obtain ⟨bl, hbl, hpos, -⟩ := balls_blocks_stage_blocks hstage bl2 hmem1
        refine ⟨hne, ?_, ?_⟩ <;> rw [hpos]
        · exact (hblk bl hbl).2.1
        · exact (hblk bl hbl).2.2
      · intro b2 hb2 hfree
        obtain ⟨b4, hb4, rfl⟩ := List.mem_map.mp hb2
        rw [integrate_ball_is_free] at hfree
        rw [integrate_ball_eq_self_of_not_free hfree]
        refine balls_blocks_stage_nonfree ?_ ?_ hstage b4 hb4 hfree
        · intro b hb hbf
          obtain ⟨b1, hb1, rfl⟩ := List.mem_map.mp hb
          rw [paddle_bounce_is_free, paddle_bounce_is_free] at hbf
          obtain ⟨b0, hb0, rfl⟩ := List.mem_map.mp (retain_in_field_balls_mem.mp hb1).1
          rw [wall_reflect_ball_is_free] at hbf
          rcases apply_player_key_events_balls happ b0 hb0 with hmem | hfr
          · obtain ⟨hv0, hy0⟩ := hball b0 hmem hbf
            have hwall : wall_reflect_ball b0 = b0 :=
              wall_reflect_ball_eq_self_of_vx_zero (by rw [hv0])
            rw [hwall]
            have hbo1 : paddle_bounce (clamp_paddle paddles0.1) b0 = b0 :=
              paddle_bounce_eq_self_of_not_collided
                (no_paddle_overlap_at_rest hy0 (Or.inl hp1y))
            have hbo2 : paddle_bounce (clamp_paddle paddles0.2) b0 = b0 :=
              paddle_bounce_eq_self_of_not_collided
                (no_paddle_overlap_at_rest hy0 (Or.inr hp2y))
            rw [hbo1, hbo2]
            exact ⟨hv0, hy0⟩
          · rw [hfr] at hbf
            exact absurd hbf (by simp)
        · exact fun bl hbl => ⟨(hblk bl hbl).2.1, (hblk bl hbl).2.2⟩

/-- Every reachable snapshot satisfies the invariants. -/
lemma reachable_world_inv {w : WorldData} (h : Reachable w) : WorldInv w := by
  induction h with
  | init => with_unfolding_all decide
  | step w w2 evs hr hstep ih => exact physics_step_world_inv hstep ih

/-! ## Claim C1: monotonic block removal -/

/-- C1: Monotonic block removal.  Whenever the physics step produces a next
snapshot, every block of the next snapshot stems from a block of the
previous snapshot at the same position with at least as many remaining
hits, and its remaining hits are still positive.  Consequently a block's
`hits_life` never increases across consecutive snapshots, and a block
absent from a snapshot (no block at its position) never reappears later. -/
theorem c1_block_removal_monotone (evs : List PlayerKeyEvent) (w w2 : WorldData)
    (h : physics_step evs w = some w2) :
    ∀ bl2 ∈ w2.blocks, bl2.hits_life ≠ 0 ∧
      ∃ bl ∈ w.blocks, bl2.position = bl.position ∧ bl2.hits_life ≤ bl.hits_life := by
  unfold physics_step at h
  split at h
  · exact absurd h (by simp)
  · rename_i paddles0 balls0 happ
    dsimp only at h
    split at h
    · exact absurd h (by simp)
    · rename_i balls4 blocks1 hstage
      simp only [Option.some.injEq] at h
      subst h
      intro bl2 hbl2
      dsimp only at hbl2
      rw [prune_blocks_mem] at hbl2
      exact ⟨hbl2.2, balls_blocks_stage_blocks hstage bl2 hbl2.1⟩

/-- A one-block world used to instantiate `c1_block_removal_monotone`. -/
def c1_world : WorldData :=
  ⟨[⟨⟨25, 440⟩, 1⟩], (⟨1, ⟨960, 20⟩⟩, ⟨0, ⟨960, 1060⟩⟩), []⟩

/-- Witness for C1 at a concrete step (`physics_step [] c1_world`). -/
theorem c1_block_removal_monotone_witness :
    (⟨⟨25, 440⟩, 1⟩ : Block).hits_life ≠ 0 ∧
      ∃ bl ∈ c1_world.blocks, (⟨⟨25, 440⟩, 1⟩ : Block).position = bl.position ∧
        (⟨⟨25, 440⟩, 1⟩ : Block).hits_life ≤ bl.hits_life :=
  c1_block_removal_monotone [] c1_world c1_world (by with_unfolding_all decide)
    ⟨⟨25, 440⟩, 1⟩ (by with_unfolding_all decide)

/-! ## Claim C2: wall reflection -/

/-- The wall condition as the claim words it: the ball's *left edge* at or
past the left wall, or its *right edge* at or past the right wall, with the
epsilon-tolerant equality included on the respective edge. -/
def claim_wall_condition (b : Ball) : Prop :=
  (b.position.x - BALL_RADIUS < 0 ∨ abs_diff_eq (b.position.x - BALL_RADIUS) 0)
  ∨ (b.position.x + BALL_RADIUS > WORLD_WIDTH
     ∨ abs_diff_eq (b.position.x + BALL_RADIUS) WORLD_WIDTH)

instance (b : Ball) : Decidable (claim_wall_condition b) := by
  unfold claim_wall_condition; infer_instance

/-- The wall condition the code actually tests (`main.rs` lines 106-111):
the ball's *center* against the left wall (strictly or epsilon-equal), and
the right edge strictly past the right wall or the *center* epsilon-equal
to the right wall. -/
def code_wall_condition (b : Ball) : Prop :=
  (b.position.x < 0 ∨ abs_diff_eq b.position.x 0)
  ∨ (b.position.x + BALL_RADIUS > WORLD_WIDTH ∨ abs_diff_eq b.position.x WORLD_WIDTH)

instance (b : Ball) : Decidable (code_wall_condition b) := by
  unfold code_wall_condition; infer_instance

/-- A ball whose left edge is exactly at the left wall (center `x = 10`,
radius `10`), moving with horizontal velocity `1`. -/
def c2_edge_ball : Ball := ⟨0, ⟨10, 500⟩, ⟨1, 0⟩, true⟩

/-- C2 counterexample: `c2_edge_ball` satisfies the claim's condition (its
left edge is at the left wall, equality included), yet the wall-reflection
stage leaves the ball entirely unchanged, and its horizontal velocity is
not the inverted one — the code compares the ball *center* with the left
wall, not the left edge. -/
theorem c2_wall_reflection_counterexample :
    claim_wall_condition c2_edge_ball
    ∧ wall_reflect_ball c2_edge_ball = c2_edge_ball
    ∧ (wall_reflect_ball c2_edge_ball).velocity.x ≠ c2_edge_ball.velocity.x * (-1) := by
  with_unfolding_all decide

/-- C2 (amended): in the wall-reflection stage each ball's horizontal
velocity is inverted exactly when the code's wall condition holds — the
center is past or epsilon-equal to the left wall, or the right edge is
strictly past the right wall, or the center is epsilon-equal to the right
wall; otherwise the horizontal velocity is unchanged.  Vertical velocity,
position, id and launch flag are never touched by this stage. -/
theorem c2_wall_reflection_amended (b : Ball) :
    ((code_wall_condition b → (wall_reflect_ball b).velocity.x = b.velocity.x * (-1))
      ∧ (¬ code_wall_condition b → (wall_reflect_ball b).velocity.x = b.velocity.x))
    ∧ (wall_reflect_ball b).velocity.y = b.velocity.y
    ∧ (wall_reflect_ball b).position = b.position
    ∧ (wall_reflect_ball b).is_free = b.is_free := by
  refine ⟨⟨?_, ?_⟩, wall_reflect_ball_velocity_y b, wall_reflect_ball_position b,
    wall_reflect_ball_is_free b⟩
  · intro hc
    unfold code_wall_condition at hc
    unfold wall_reflect_ball
    rw [if_pos hc]
  · intro hc
    unfold code_wall_condition at hc
    unfold wall_reflect_ball
    rw [if_neg hc]

/-- A ball whose center is past the left wall. -/
def c2_past_ball : Ball := ⟨0, ⟨-5, 500⟩, ⟨2, 3⟩, true⟩

/-- Witness for C2 (amended) at `c2_past_ball`. -/
theorem c2_wall_reflection_witness :
    (wall_reflect_ball c2_past_ball).velocity.x = c2_past_ball.velocity.x * (-1) :=
  (c2_wall_reflection_amended c2_past_ball).1.1 (by with_unfolding_all decide)

/-! ## Claim C3: paddle invariant -/

/-- C3: every snapshot reachable by the game loop holds exactly two paddles
(structurally, the `paddles` field is a pair, mirroring the Rust
`[Paddle; 2]`), one with id 1 and one with id 0, and each paddle's
x-position lies within `[PADDLE_WIDTH/2, WORLD_WIDTH - PADDLE_WIDTH/2]`
(established by the clamp stage, untouched afterwards). -/
theorem c3_paddle_invariant (w : WorldData) (h : Reachable w) :
    (w.paddles.1.id = 1 ∧ w.paddles.2.id = 0)
    ∧ (PADDLE_WIDTH / 2 ≤ w.paddles.1.position.x
       ∧ w.paddles.1.position.x ≤ WORLD_WIDTH - PADDLE_WIDTH / 2)
    ∧ (PADDLE_WIDTH / 2 ≤ w.paddles.2.position.x
       ∧ w.paddles.2.position.x ≤ WORLD_WIDTH - PADDLE_WIDTH / 2) := by
  obtain ⟨⟨h1, h2, h3, h4, h5, h6, h7, h8⟩, -, -⟩ := reachable_world_inv h
  exact ⟨⟨h1, h2⟩, ⟨h5, h6⟩, ⟨h7, h8⟩⟩

/-- Witness for C3 at the initial snapshot. -/
theorem c3_paddle_invariant_witness :
    (create_world_data.paddles.1.id = 1 ∧ create_world_data.paddles.2.id = 0)
    ∧ (PADDLE_WIDTH / 2 ≤ create_world_data.paddles.1.position.x
       ∧ create_world_data.paddles.1.position.x ≤ WORLD_WIDTH - PADDLE_WIDTH / 2)
    ∧ (PADDLE_WIDTH / 2 ≤ create_world_data.paddles.2.position.x
       ∧ create_world_data.paddles.2.position.x ≤ WORLD_WIDTH - PADDLE_WIDTH / 2) :=
  c3_paddle_invariant create_world_data Reachable.init

/-! ## Claim C4: first-match-wins block collision -/

/-- C4: first-match-wins block collision.  If the blocks list splits as
`pre ++ bl :: post` where the ball overlaps no block of `pre` but overlaps
`bl` (which has `n + 1` remaining hits), then the per-ball block scan
returns: the ball reflected on the axis chosen by comparing the absolute
vertical vs horizontal offset from block center to ball center
(vertical-dominant flips `velocity.y`, otherwise `velocity.x`), the blocks
of `pre` unchanged, `bl` decremented by exactly one, and the blocks of
`post` untouched (the scan stops at the first overlap). -/
theorem c4_block_first_match (b : Ball) (pre post : List Block) (bl : Block) (n : Nat)
    (hpre : ∀ x ∈ pre,
      ¬ is_ball_collided_with_object b x.position (BLOCK_SIZE : ℚ) (BLOCK_SIZE : ℚ))
    (hhit : is_ball_collided_with_object b bl.position (BLOCK_SIZE : ℚ) (BLOCK_SIZE : ℚ))
    (hlife : bl.hits_life = n + 1) :
    ball_blocks_step b (pre ++ bl :: post) =
      some ((if is_ball_hit_top_or_bottom_of_block b bl then
          (⟨b.id, b.position, ⟨b.velocity.x, b.velocity.y * (-1)⟩, b.is_free⟩ : Ball)
        else ⟨b.id, b.position, ⟨b.velocity.x * (-1), b.velocity.y⟩, b.is_free⟩),
        pre ++ (⟨bl.position, n⟩ : Block) :: post) := by
  induction pre with
  | nil =>
    simp only [List.nil_append]
    unfold ball_blocks_step
    rw [if_pos hhit, hlife]
  | cons x rest ih =>
    simp only [List.cons_append]
    unfold ball_blocks_step
    rw [if_neg (hpre x (by simp))]
    rw [ih (fun z hz => hpre z (by simp [hz]))]
    rfl

/-- Ball used to instantiate C4. -/
def c4_ball : Ball := ⟨0, ⟨100, 100⟩, ⟨3, 4⟩, true⟩

/-- A block the C4 ball does not overlap. -/
def c4_miss_block : Block := ⟨⟨500, 500⟩, 1⟩

/-- The first block the C4 ball overlaps (two hits left). -/
def c4_hit_block : Block := ⟨⟨100, 120⟩, 2⟩

/-- A later block at the same position as the hit block, to exhibit that the
scan stops after the first match. -/
def c4_tail_block : Block := ⟨⟨100, 120⟩, 5⟩

/-- Witness for C4: concrete first-match-wins scan. -/
theorem c4_block_first_match_witness :
    ball_blocks_step c4_ball ([c4_miss_block] ++ c4_hit_block :: [c4_tail_block]) =
      some ((if is_ball_hit_top_or_bottom_of_block c4_ball c4_hit_block then
          (⟨c4_ball.id, c4_ball.position,
            ⟨c4_ball.velocity.x, c4_ball.velocity.y * (-1)⟩, c4_ball.is_free⟩ : Ball)
        else ⟨c4_ball.id, c4_ball.position,
          ⟨c4_ball.velocity.x * (-1), c4_ball.velocity.y⟩, c4_ball.is_free⟩),
        [c4_miss_block] ++ (⟨c4_hit_block.position, 1⟩ : Block) :: [c4_tail_block]) :=
  c4_block_first_match c4_ball [c4_miss_block] [c4_tail_block] c4_hit_block 1
    (by with_unfolding_all decide) (by with_unfolding_all decide) rfl

/-! ## Claim C5: out-of-bounds removal -/

/-- The removal condition as the claim words it: top edge at/above the top
wall or bottom edge at/beyond the bottom wall. -/
def claim_out_of_bounds (b : Ball) : Prop :=
  b.position.y - BALL_RADIUS ≤ 0 ∨ b.position.y + BALL_RADIUS ≥ WORLD_HEIGHT

instance (b : Ball) : Decidable (claim_out_of_bounds b) := by
  unfold claim_out_of_bounds; infer_instance

/-- A free, motionless ball whose center is at `y = 5`: its top edge
(`y = -5`) is above the top wall. -/
def c5_high_ball : Ball := ⟨0, ⟨960, 5⟩, ⟨0, 0⟩, true⟩

/-- A snapshot holding only `c5_high_ball`, with paddles away from it. -/
def c5_surviving_world : WorldData :=
  ⟨[], (⟨1, ⟨100, 20⟩⟩, ⟨0, ⟨100, 1060⟩⟩), [c5_high_ball]⟩

/-- C5 counterexample: the physics step keeps `c5_surviving_world`
unchanged, so a ball whose top edge is at/above the top wall survives into
the next snapshot — the code removes on `center y ≤ 0`, not on the top
edge. -/
theorem c5_out_of_bounds_counterexample :
    physics_step [] c5_surviving_world = some c5_surviving_world
    ∧ c5_high_ball ∈ c5_surviving_world.balls
    ∧ claim_out_of_bounds c5_high_ball := by
  with_unfolding_all decide

/-- The scenario ball of the claim: velocity `(0, -1)`, launched, `y = 0`. -/
def c5_scenario_ball : Ball := ⟨0, ⟨960, 0⟩, ⟨0, -1⟩, true⟩

/-- A snapshot holding only `c5_scenario_ball`. -/
def c5_scenario_world : WorldData :=
  ⟨[], (⟨1, ⟨100, 20⟩⟩, ⟨0, ⟨100, 1060⟩⟩), [c5_scenario_ball]⟩

/-- C5 (amended): the out-of-bounds stage removes exactly those balls whose
*center* is at/above the top wall (`y ≤ 0`) or whose bottom edge is
at/beyond the bottom wall (`y + BALL_RADIUS ≥ WORLD_HEIGHT`); and the
claim's concrete scenario holds: a ball with velocity `(0, -1)`,
`launched = true` and `y = 0` is removed from the next snapshot's ball
list. -/
theorem c5_out_of_bounds_amended :
    (∀ (bs : List Ball) (b : Ball), b ∈ retain_in_field_balls bs ↔
      (b ∈ bs ∧ ¬ b.position.y ≤ 0 ∧ ¬ b.position.y + BALL_RADIUS ≥ WORLD_HEIGHT))
    ∧ physics_step [] c5_scenario_world =
        some ⟨[], (⟨1, ⟨100, 20⟩⟩, ⟨0, ⟨100, 1060⟩⟩), []⟩ := by
  constructor
  · intro bs b
    exact retain_in_field_balls_mem
  · with_unfolding_all decide

/-! ## Claim C6: un-launched balls have zero velocity -/

/-- C6: in every snapshot reachable from the initial world by the physics
step, a ball that is not launched (`is_free = false`) has zero velocity. -/
theorem c6_unlaunched_zero_velocity (w : WorldData) (h : Reachable w) :
    ∀ b ∈ w.balls, b.is_free = false → b.velocity = ⟨0, 0⟩ := by
  obtain ⟨-, -, hball⟩ := reachable_world_inv h
  intro b hb hfree
  exact (hball b hb hfree).1

/-- Witness for C6 at the initial snapshot and its first ball. -/
theorem c6_unlaunched_zero_velocity_witness :
    (⟨1, ⟨960, 40⟩, ⟨0, 0⟩, false⟩ : Ball).velocity = ⟨0, 0⟩ :=
  c6_unlaunched_zero_velocity create_world_data Reachable.init
    ⟨1, ⟨960, 40⟩, ⟨0, 0⟩, false⟩ (by with_unfolding_all decide) rfl

/-! ## Claim C7: paddle collision -/

/-- Paddle for the C7 counterexample, centered at `x = 960`. -/
def c7_eps_paddle : Paddle := ⟨0, ⟨960, 500⟩⟩

/-- Ball overlapping `c7_eps_paddle` with a non-zero horizontal offset of
`2⁻²⁴` (representable exactly in `f32`, smaller than `f32::EPSILON`). -/
def c7_eps_ball : Ball := ⟨0, ⟨960 + 1 / 16777216, 500⟩, ⟨7, 2⟩, true⟩

/-- C7 counterexample: the ball overlaps the paddle and its horizontal
offset from the paddle center is non-zero, yet the bounce leaves the
horizontal velocity unchanged (and unequal to `offset / (PADDLE_WIDTH/2)`)
— the code's zero test is epsilon-tolerant, not exact. -/
theorem c7_paddle_deflect_counterexample :
    is_ball_collided_with_object c7_eps_ball c7_eps_paddle.position PADDLE_WIDTH PADDLE_HEIGHT
    ∧ c7_eps_ball.position.x - c7_eps_paddle.position.x ≠ 0
    ∧ (paddle_bounce c7_eps_paddle c7_eps_ball).velocity.x = c7_eps_ball.velocity.x
    ∧ (paddle_bounce c7_eps_paddle c7_eps_ball).velocity.x ≠
        (c7_eps_ball.position.x - c7_eps_paddle.position.x) / (PADDLE_WIDTH / 2) := by
  with_unfolding_all decide

/-- C7 (amended): for every ball and paddle, overlap is the AABB test with
the ball approximated as a square of side `2 × BALL_RADIUS`; on overlap the
ball's vertical velocity is inverted and, when the ball's horizontal offset
from the paddle's center differs from zero by more than `f32::EPSILON`, the
horizontal velocity component is set to `offset / (PADDLE_WIDTH / 2)`
(otherwise it is left unchanged); position, id and launch flag are
untouched. -/
theorem c7_paddle_collision_amended (p : Paddle) (b : Ball)
    (hcol : is_ball_collided_with_object b p.position PADDLE_WIDTH PADDLE_HEIGHT) :
    (paddle_bounce p b).velocity.y = b.velocity.y * (-1)
    ∧ (¬ abs_diff_eq (b.position.x - p.position.x) 0 →
        (paddle_bounce p b).velocity.x = (b.position.x - p.position.x) / (PADDLE_WIDTH / 2))
    ∧ (abs_diff_eq (b.position.x - p.position.x) 0 →
        (paddle_bounce p b).velocity.x = b.velocity.x)
    ∧ (paddle_bounce p b).position = b.position
    ∧ (paddle_bounce p b).is_free = b.is_free := by
  unfold paddle_bounce
  rw [if_pos hcol]
  dsimp only
  refine ⟨rfl, ?_, ?_, rfl, rfl⟩
  · intro hd
    rw [if_pos hd]
  · intro hd
    rw [if_neg (by intro hx; exact hx hd)]

/-- Paddle for the C7 witness. -/
def c7_hit_paddle : Paddle := ⟨0, ⟨100, 500⟩⟩

/-- Ball overlapping `c7_hit_paddle` with offset `50`. -/
def c7_hit_ball : Ball := ⟨0, ⟨150, 505⟩, ⟨1, 2⟩, true⟩

/-- Witness for C7 (amended) at a concrete overlapping pair. -/
theorem c7_paddle_collision_witness :
    (paddle_bounce c7_hit_paddle c7_hit_ball).velocity.y = c7_hit_ball.velocity.y * (-1)
    ∧ (paddle_bounce c7_hit_paddle c7_hit_ball).velocity.x =
        (c7_hit_ball.position.x - c7_hit_paddle.position.x) / (PADDLE_WIDTH / 2) :=
  ⟨(c7_paddle_collision_amended c7_hit_paddle c7_hit_ball (by with_unfolding_all decide)).1,
   (c7_paddle_collision_amended c7_hit_paddle c7_hit_ball (by with_unfolding_all decide)).2.1
     (by with_unfolding_all decide)⟩

/-! ## Claim C8: idempotence on resting snapshots -/

/-- A snapshot whose only ball is un-launched and motionless but whose
first paddle stands at `x = 0`, outside the clamp range. -/
def c8_unclamped_world : WorldData :=
  ⟨[], (⟨1, ⟨0, 20⟩⟩, ⟨0, ⟨960, 1060⟩⟩), [⟨0, ⟨960, 1040⟩, ⟨0, 0⟩, false⟩]⟩

/-- C8 counterexample: `c8_unclamped_world` has every ball un-launched and
not moving, yet the physics step with no intents does not return it
unchanged — the clamp stage moves the paddle from `x = 0` to `x = 100`.
The claim needs the snapshot to be reachable. -/
theorem c8_idempotence_counterexample :
    (∀ b ∈ c8_unclamped_world.balls, b.is_free = false ∧ b.velocity = ⟨0, 0⟩)
    ∧ physics_step [] c8_unclamped_world ≠ some c8_unclamped_world
    ∧ physics_step [] c8_unclamped_world =
        some ⟨[], (⟨1, ⟨100, 20⟩⟩, ⟨0, ⟨960, 1060⟩⟩), [⟨0, ⟨960, 1040⟩, ⟨0, 0⟩, false⟩]⟩ := by
  with_unfolding_all decide

/-- C8 (amended): on every snapshot *reachable from the initial world* in
which every ball is not launched and not moving, the physics step with an
empty intent list returns the very same snapshot. -/
theorem c8_idempotence_amended (w : WorldData) (h : Reachable w)
    (hball : ∀ b ∈ w.balls, b.is_free = false ∧ b.velocity = ⟨0, 0⟩) :
    physics_step [] w = some w := by
  obtain ⟨⟨hid1, hid2, hy1, hy2, hx1l, hx1r, hx2l, hx2r⟩, hblk, hballinv⟩ :=
    reachable_world_inv h
  have hprop : ∀ b ∈ w.balls,
      b.velocity = ⟨0, 0⟩ ∧ (b.position.y = 40 ∨ b.position.y = 1040) := by
    intro b hb
    exact ⟨(hball b hb).2, (hballinv b hb (hball b hb).1).2⟩
  have hwall : w.balls.map wall_reflect_ball = w.balls :=
    list_map_eq_self_of (fun b hb =>
      wall_reflect_ball_eq_self_of_vx_zero (by rw [(hprop b hb).1]))
  have hretain : retain_in_field_balls w.balls = w.balls := by
    unfold retain_in_field_balls
    apply list_filter_eq_self_of
    intro b hb
    rcases (hprop b hb).2 with hy | hy <;> rw [hy] <;>
      with_unfolding_all decide
  have hbounce :
      w.balls.map (fun b => paddle_bounce w.paddles.2 (paddle_bounce w.paddles.1 b))
        = w.balls := by
    apply list_map_eq_self_of
    intro b hb
    rw [paddle_bounce_eq_self_of_not_collided
        (no_paddle_overlap_at_rest (hprop b hb).2 (Or.inl hy1)),
      paddle_bounce_eq_self_of_not_collided
        (no_paddle_overlap_at_rest (hprop b hb).2 (Or.inr hy2))]
  have hstage : balls_blocks_stage w.balls w.blocks = some (w.balls, w.blocks) :=
    balls_blocks_stage_eq_self_of_no_overlap (fun b hb bl hbl =>
      no_block_overlap_at_rest (hprop b hb).2 ⟨(hblk bl hbl).2.1, (hblk bl hbl).2.2⟩)
  have hprune : prune_blocks w.blocks = w.blocks := by
    unfold prune_blocks
    apply list_filter_eq_self_of
    intro bl hbl
    simp [(hblk bl hbl).1]
  have hintegrate : w.balls.map integrate_ball = w.balls :=
    list_map_eq_self_of (fun b hb => integrate_ball_eq_self_of_not_free (hball b hb).1)
  have hcl1 : clamp_paddle w.paddles.1 = w.paddles.1 := clamp_paddle_eq_self hx1l hx1r
  have hcl2 : clamp_paddle w.paddles.2 = w.paddles.2 := clamp_paddle_eq_self hx2l hx2r
  unfold physics_step
  rw [show apply_player_key_events [] w.paddles w.balls = some (w.paddles, w.balls) from rfl]
  dsimp only
  rw [hcl1, hcl2, hwall, hretain, hbounce, hstage]
  dsimp only
  rw [hprune, hintegrate]

/-- Witness for C8 (amended) at the initial snapshot. -/
theorem c8_idempotence_witness :
    physics_step [] create_world_data = some create_world_data :=
  c8_idempotence_amended create_world_data Reachable.init (by with_unfolding_all decide)

/-! ## Claim C9: launch intent for a removed ball aborts the loop -/

/-- Tick-1 event batch: 22 `KEY_LEFT` presses move paddle 1 from `x = 960`
to `x = 850` (it then no longer overlaps its ball's square), and one
`KEY_SPACE` launches ball 1 upward. -/
def c9_tick1_events : List PlayerKeyEvent :=
  List.replicate 22 ⟨1, KEY_LEFT⟩ ++ [⟨1, KEY_SPACE⟩]

/-- Nine ticks: the launch tick plus eight empty ticks.  Ball 1 starts at
`y = 40` and climbs `5` per tick; at the ninth tick its center has reached
`y = 0` and the out-of-bounds stage removes it. -/
def c9_head_ticks : List (List PlayerKeyEvent) :=
  c9_tick1_events :: List.replicate 8 []

/-- C9: after `c9_head_ticks` the game loop is still alive, ball id 1 is
gone from the snapshot while paddle id 1 is still present, and processing
one more `KEY_SPACE` intent for player 1 makes the physics step abort
(`none`): the ball-by-player-id lookup of the launch branch fails, i.e.
its `.unwrap()` panic is reachable from the initial world. -/
theorem c9_launch_after_removal :
    run_ticks create_world_data (c9_head_ticks ++ [[⟨1, KEY_SPACE⟩]]) = none
    ∧ (run_ticks create_world_data c9_head_ticks).isSome = true
    ∧ Option.all (fun w9 => w9.balls.all (fun b => b.id != 1) && (w9.paddles.1.id == 1))
        (run_ticks create_world_data c9_head_ticks) = true := by
  with_unfolding_all decide

/-! ## Claim C10: initial world layout -/

/-- Horizontal centering of a block layout, as the claim words it: the
layout is mirror-symmetric about the vertical middle of the field. -/
def horizontally_centered_layout (blocks : List Block) : Prop :=
  ∀ bl ∈ blocks, ∃ bl2 ∈ blocks, bl2.position.x = WORLD_WIDTH - bl.position.x

instance (blocks : List Block) : Decidable (horizontally_centered_layout blocks) := by
  unfold horizontally_centered_layout; infer_instance

/-- C10 counterexample: the initial block grid is *not* horizontally
centered — it is anchored at the left wall (a block's left edge sits at
`x = 0`) and overhangs the right wall (a block's right edge reaches
`1937 > 1920`). -/
theorem c10_grid_counterexample :
    ¬ horizontally_centered_layout create_world_data.blocks
    ∧ (∃ bl ∈ create_world_data.blocks, bl.position.x - (BLOCK_SIZE : ℚ) / 2 = 0)
    ∧ (∃ bl ∈ create_world_data.blocks, bl.position.x + (BLOCK_SIZE : ℚ) / 2 > WORLD_WIDTH) := by
  with_unfolding_all decide

set_option maxHeartbeats 2000000 in
/-- C10 (amended): `create_world_data` lays out `5 × 38` blocks row-major
on a 51-unit pitch anchored at the left wall (block `i` centered at
`x = (i mod 38)·51 + 25`, `y = (i div 38)·51 + 440`, so the grid is not
horizontally centered and straddles the vertical midline), every block
with one remaining hit; paddle id 1 sits near the top edge and paddle id 0
near the bottom edge, both centered horizontally; one un-launched,
zero-velocity ball is attached to each paddle, centered on it and offset
outward from the paddle face by the ball radius. -/
theorem c10_initial_layout :
    create_world_data =
      ⟨(List.range 190).map (fun i =>
          ⟨⟨(((i % 38) * 51 + 25 : Nat) : ℚ), (((i / 38) * 51 + 440 : Nat) : ℚ)⟩, 1⟩),
       (⟨1, ⟨960, 20⟩⟩, ⟨0, ⟨960, 1060⟩⟩),
       [⟨1, ⟨960, 40⟩, ⟨0, 0⟩, false⟩, ⟨0, ⟨960, 1040⟩, ⟨0, 0⟩, false⟩]⟩ := by
  with_unfolding_all decide
